import Mathlib

set_option maxHeartbeats 1000000

namespace Pulsar

/-- Modelled from the spec: MessageId.h and MessageId.cc are not under src/.
The spec describes a MessageId as an opaque, totally ordered identifier with an
"invalid" sentinel; we model it as the usual (ledgerId, entryId, partition,
batchIndex) tuple whose default-constructed value is the all-minus-one sentinel. -/
structure MessageId where
  ledgerId : Int := -1
  entryId : Int := -1
  partition : Int := -1
  batchIndex : Int := -1
  deriving DecidableEq

/-- The `invalidMessageId` constant of src/lib/Message.cc line 37: a
default-constructed MessageId. -/
def invalidMessageId : MessageId := {}

/-- A protobuf KeyValue pair (from PulsarApi.pb.h). -/
structure KeyValue where
  key : String
  value : String
  deriving DecidableEq

/-- The fields of proto::MessageMetadata that src/lib/Message.cc reads or
writes: the optional protobuf fields (has_x / set_x / clear_x) become Options,
and the repeated KeyValue properties field becomes a list. -/
structure MessageMetadata where
  producer_name : String := ""
  sequence_id : Option Nat := none
  publish_time : Nat := 0
  properties : List KeyValue := []
  partition_key : Option String := none
  ordering_key : Option String := none
  event_time : Option Nat := none
  schema_version : Option (List Nat) := none
  deriving DecidableEq

/-- The fields of proto::SingleMessageMetadata (the per-entry override
metadata) that src/lib/Message.cc reads. -/
structure SingleMessageMetadata where
  properties : List KeyValue := []
  partition_key : Option String := none
  ordering_key : Option String := none
  event_time : Option Nat := none
  sequence_id : Option Nat := none
  deriving DecidableEq

/-- Modelled from the spec: MessageImpl.h is not under src/. It is the state
the Message accessors in src/lib/Message.cc read: the MessageId, the protobuf
metadata, the payload byte slice, the topic name and the redelivery count. -/
structure MessageImpl where
  messageId : MessageId := invalidMessageId
  metadata : MessageMetadata := {}
  payload : List Nat := []
  topicName : String := ""
  redeliveryCount : Nat := 0
  deriving DecidableEq

/-- A Message handle (pulsar::Message): impl_ models the shared pointer to the
MessageImpl, where none models a null impl_ (as in a default-constructed
Message, src/lib/Message.cc line 69). -/
structure Message where
  impl_ : Option MessageImpl
  deriving DecidableEq

/-- A default-constructed Message (src/lib/Message.cc line 69): impl_ is null. -/
def defaultMessage : Message := ⟨none⟩

/-- Modelled from the spec: MessageImpl.h is not under src/; per the spec the
message carries a string-to-string properties mapping built from the key/value
entries of its metadata. -/
def MessageImpl.propertiesMap (impl : MessageImpl) : List (String × String) :=
  impl.metadata.properties.map fun kv => (kv.key, kv.value)

/-- Modelled from the spec (MessageImpl.h not under src/): the partition key is
present when the metadata has the optional field set. -/
def MessageImpl.hasPartitionKey (impl : MessageImpl) : Bool :=
  impl.metadata.partition_key.isSome

/-- Modelled from the spec (MessageImpl.h not under src/). -/
def MessageImpl.getPartitionKey (impl : MessageImpl) : String :=
  impl.metadata.partition_key.getD ""

/-- Modelled from the spec (MessageImpl.h not under src/). -/
def MessageImpl.hasOrderingKey (impl : MessageImpl) : Bool :=
  impl.metadata.ordering_key.isSome

/-- Modelled from the spec (MessageImpl.h not under src/). -/
def MessageImpl.getOrderingKey (impl : MessageImpl) : String :=
  impl.metadata.ordering_key.getD ""

/-- Modelled from the spec (MessageImpl.h not under src/). -/
def MessageImpl.getTopicName (impl : MessageImpl) : String :=
  impl.topicName

/-- Modelled from the spec (MessageImpl.h not under src/). -/
def MessageImpl.getRedeliveryCount (impl : MessageImpl) : Nat :=
  impl.redeliveryCount

/-- Modelled from the spec (MessageImpl.h not under src/). -/
def MessageImpl.hasSchemaVersion (impl : MessageImpl) : Bool :=
  impl.metadata.schema_version.isSome

/-- Modelled from the spec (MessageImpl.h not under src/): the schema version
bytes, empty when unset. -/
def MessageImpl.getSchemaVersion (impl : MessageImpl) : List Nat :=
  impl.metadata.schema_version.getD []

/-- Modelled from the spec (MessageImpl.h not under src/). -/
def MessageImpl.getPublishTimestamp (impl : MessageImpl) : Nat :=
  impl.metadata.publish_time

/-- Modelled from the spec (MessageImpl.h not under src/): the event timestamp,
zero when the optional metadata field is unset. -/
def MessageImpl.getEventTimestamp (impl : MessageImpl) : Nat :=
  impl.metadata.event_time.getD 0

/-- Message::getProperties, src/lib/Message.cc line 39. It dereferences impl_
with no null check, so a message with a null impl_ has no defined result: that
undefined behavior is modelled by none. -/
def Message.getProperties (m : Message) : Option (List (String × String)) :=
  m.impl_.map MessageImpl.propertiesMap

/-- Message::hasProperty, src/lib/Message.cc lines 41-44. Dereferences impl_
with no null check; none models the undefined null-impl_ case. -/
def Message.hasProperty (m : Message) (name : String) : Option Bool :=
  m.impl_.map fun impl => (impl.propertiesMap.lookup name).isSome

/-- Message::getProperty, src/lib/Message.cc lines 46-53: the value when the
property exists, the empty string otherwise. Dereferences impl_ with no null
check; none models the undefined null-impl_ case. -/
def Message.getProperty (m : Message) (name : String) : Option String :=
  m.impl_.map fun impl => (impl.propertiesMap.lookup name).getD ""

/-- Message::getData, src/lib/Message.cc line 55. Dereferences impl_ with no
null check; none models the undefined null-impl_ case. -/
def Message.getData (m : Message) : Option (List Nat) :=
  m.impl_.map fun impl => impl.payload

/-- Message::getLength, src/lib/Message.cc line 57. Dereferences impl_ with no
null check; none models the undefined null-impl_ case. -/
def Message.getLength (m : Message) : Option Nat :=
  m.impl_.map fun impl => impl.payload.length

/-- Message::getDataAsString, src/lib/Message.cc line 66: the payload bytes as
a string. Dereferences impl_ (through getData) with no null check; none models
the undefined null-impl_ case. -/
def Message.getDataAsString (m : Message) : Option (List Nat) :=
  m.impl_.map fun impl => impl.payload

/-- Message::getMessageId, src/lib/Message.cc lines 124-130: the invalid
sentinel when impl_ is null. -/
def Message.getMessageId (m : Message) : MessageId :=
  match m.impl_ with
  | none => invalidMessageId
  | some impl => impl.messageId

/-- Message::setMessageId, src/lib/Message.cc lines 132-137: assigns the id
whenever impl_ is non-null (no check that an id was already bound), and is a
no-op on a null impl_. The C++ mutates the shared impl; we return the updated
handle. -/
def Message.setMessageId (m : Message) (messageID : MessageId) : Message :=
  match m.impl_ with
  | some impl => ⟨some { impl with messageId := messageID }⟩
  | none => m

/-- Message::hasPartitionKey, src/lib/Message.cc lines 139-144. -/
def Message.hasPartitionKey (m : Message) : Bool :=
  match m.impl_ with
  | some impl => impl.hasPartitionKey
  | none => false

/-- Message::getPartitionKey, src/lib/Message.cc lines 146-151. -/
def Message.getPartitionKey (m : Message) : String :=
  match m.impl_ with
  | none => ""
  | some impl => impl.getPartitionKey

/-- Message::hasOrderingKey, src/lib/Message.cc lines 153-158. -/
def Message.hasOrderingKey (m : Message) : Bool :=
  match m.impl_ with
  | some impl => impl.hasOrderingKey
  | none => false

/-- Message::getOrderingKey, src/lib/Message.cc lines 160-165. -/
def Message.getOrderingKey (m : Message) : String :=
  match m.impl_ with
  | none => ""
  | some impl => impl.getOrderingKey

/-- Message::getTopicName, src/lib/Message.cc lines 167-172. -/
def Message.getTopicName (m : Message) : String :=
  match m.impl_ with
  | none => ""
  | some impl => impl.getTopicName

/-- Message::getRedeliveryCount, src/lib/Message.cc lines 174-179. -/
def Message.getRedeliveryCount (m : Message) : Nat :=
  match m.impl_ with
  | none => 0
  | some impl => impl.getRedeliveryCount

/-- Message::hasSchemaVersion, src/lib/Message.cc lines 181-186. -/
def Message.hasSchemaVersion (m : Message) : Bool :=
  match m.impl_ with
  | some impl => impl.hasSchemaVersion
  | none => false

/-- Modelled from the spec: Int64SerDes.h is not under src/; by its name and
the spec, fromBigEndianBytes reads the bytes as a big-endian unsigned 64-bit
number and reinterprets it as a two's-complement signed 64-bit integer. -/
def fromBigEndianBytes (bs : List Nat) : Int :=
  let u : Nat := (bs.foldl (fun acc b => acc * 256 + b % 256) 0) % 2 ^ 64
  if u < 2 ^ 63 then (u : Int) else (u : Int) - 2 ^ 64

/-- Message::getLongSchemaVersion, src/lib/Message.cc lines 188-190:
(impl_ and impl_ has a schema version) gives the big-endian value, else -1. -/
def Message.getLongSchemaVersion (m : Message) : Int :=
  match m.impl_ with
  | some impl =>
      if impl.hasSchemaVersion then fromBigEndianBytes impl.getSchemaVersion else -1
  | none => -1

/-- Message::getSchemaVersion, src/lib/Message.cc lines 192-197 (the schema
version bytes; the empty string when impl_ is null). -/
def Message.getSchemaVersion (m : Message) : List Nat :=
  match m.impl_ with
  | none => []
  | some impl => impl.getSchemaVersion

/-- Message::getPublishTimestamp, src/lib/Message.cc line 199. -/
def Message.getPublishTimestamp (m : Message) : Nat :=
  match m.impl_ with
  | some impl => impl.getPublishTimestamp
  | none => 0

/-- Message::getEventTimestamp, src/lib/Message.cc line 201. -/
def Message.getEventTimestamp (m : Message) : Nat :=
  match m.impl_ with
  | some impl => impl.getEventTimestamp
  | none => 0

/-- Message::operator==, src/lib/Message.cc line 203: equality of the two
getMessageId results (MessageId equality is structural, modelled from the spec
since MessageId.cc is not under src/). -/
def Message.msgEq (m1 m2 : Message) : Bool :=
  decide (m1.getMessageId = m2.getMessageId)

/-- The batch-entry decode constructor
Message::Message(messageID, metadata, payload, singleMetadata, topicName),
src/lib/Message.cc lines 80-122, step by step on the metadata copy. -/
def Message.decode (messageID : MessageId) (metadata : MessageMetadata)
    (payload : List Nat) (singleMetadata : SingleMessageMetadata)
    (topicName : String) : Message :=
  -- line 86: impl_->metadata.mutable_properties()->CopyFrom(singleMetadata.properties())
  let m1 : MessageMetadata := { metadata with properties := singleMetadata.properties }
  -- line 89: impl_->metadata.clear_properties()
  let m2 : MessageMetadata := { m1 with properties := [] }
  -- lines 90-97: re-add each of singleMetadata's properties when there is at least one
  let m3 : MessageMetadata :=
    if 0 < singleMetadata.properties.length then
      { m2 with properties := singleMetadata.properties }
    else m2
  -- lines 99-103: set_partition_key when present, clear_partition_key otherwise
  let m4 : MessageMetadata :=
    { m3 with partition_key := match singleMetadata.partition_key with
        | some k => some k
        | none => none }
  -- lines 105-109: set_ordering_key when present, clear_ordering_key otherwise
  let m5 : MessageMetadata :=
    { m4 with ordering_key := match singleMetadata.ordering_key with
        | some k => some k
        | none => none }
  -- lines 111-115: set_event_time when present, clear_event_time otherwise
  let m6 : MessageMetadata :=
    { m5 with event_time := match singleMetadata.event_time with
        | some t => some t
        | none => none }
  -- lines 117-121: set_sequence_id when present, clear_sequence_id otherwise
  let m7 : MessageMetadata :=
    { m6 with sequence_id := match singleMetadata.sequence_id with
        | some i => some i
        | none => none }
  ⟨some { messageId := messageID, metadata := m7, payload := payload,
          topicName := topicName, redeliveryCount := 0 }⟩

/-- C1: the batch decode replaces the properties mapping entirely with the
entry override metadata's properties — equal exactly to them, also when the
override's properties are empty; the batch metadata's properties never appear
in the decoded message. -/
theorem decode_properties_override (messageID : MessageId) (B : MessageMetadata)
    (payload : List Nat) (O : SingleMessageMetadata) (topic : String) :
    (Message.decode messageID B payload O topic).getProperties
      = some (O.properties.map fun kv => (kv.key, kv.value)) := by
  cases hp : O.properties with
  | nil =>
      simp [Message.decode, Message.getProperties, MessageImpl.propertiesMap, hp]
  | cons kv rest =>
      simp [Message.decode, Message.getProperties, MessageImpl.propertiesMap, hp]

/-- C2: for partition key, ordering key, event time and sequence id, the batch
decode carries the override's value when the override has the field set, and
reports the field as not present when the override has it unset — the batch
metadata's value for the field is never inherited. -/
theorem decode_override_fields (messageID : MessageId) (B : MessageMetadata)
    (payload : List Nat) (O : SingleMessageMetadata) (topic : String) :
    (Message.decode messageID B payload O topic).hasPartitionKey = O.partition_key.isSome
    ∧ (Message.decode messageID B payload O topic).getPartitionKey = O.partition_key.getD ""
    ∧ (Message.decode messageID B payload O topic).hasOrderingKey = O.ordering_key.isSome
    ∧ (Message.decode messageID B payload O topic).getOrderingKey = O.ordering_key.getD ""
    ∧ ((Message.decode messageID B payload O topic).impl_.map fun i => i.metadata.event_time)
        = some O.event_time
    ∧ (Message.decode messageID B payload O topic).getEventTimestamp = O.event_time.getD 0
    ∧ ((Message.decode messageID B payload O topic).impl_.map fun i => i.metadata.sequence_id)
        = some O.sequence_id := by
  refine ⟨?_, ?_, ?_, ?_, ?_, ?_, ?_⟩
  · cases h : O.partition_key <;>
      simp [Message.decode, Message.hasPartitionKey, MessageImpl.hasPartitionKey, h]
  · cases h : O.partition_key <;>
      simp [Message.decode, Message.getPartitionKey, MessageImpl.getPartitionKey, h]
  · cases h : O.ordering_key <;>
      simp [Message.decode, Message.hasOrderingKey, MessageImpl.hasOrderingKey, h]
  · cases h : O.ordering_key <;>
      simp [Message.decode, Message.getOrderingKey, MessageImpl.getOrderingKey, h]
  · cases h : O.event_time <;> simp [Message.decode, h]
  · cases h : O.event_time <;>
      simp [Message.decode, Message.getEventTimestamp, MessageImpl.getEventTimestamp, h]
  · cases h : O.sequence_id <;> simp [Message.decode, h]

/-- C6: the batch decode stores exactly the payload slice it was given — the
decoded message's getData returns those bytes and getLength their count,
independent of any other entry's payload. -/
theorem decode_payload_exact (messageID : MessageId) (B : MessageMetadata)
    (payload : List Nat) (O : SingleMessageMetadata) (topic : String) :
    (Message.decode messageID B payload O topic).getData = some payload
    ∧ (Message.decode messageID B payload O topic).getLength = some payload.length := by
  constructor
  · simp [Message.decode, Message.getData]
  · simp [Message.decode, Message.getLength]

/-- C3 counterexample: on a default-constructed Message (null impl_), the
accessors getProperties, hasProperty, getProperty, getData, getLength and
getDataAsString dereference the null impl_ — there is no defined (empty)
result, modelled as none — so the claim that every accessor returns a defined
empty value is false. -/
theorem default_message_unguarded_accessors_undefined :
    defaultMessage.getProperties = none
    ∧ defaultMessage.hasProperty "k" = none
    ∧ defaultMessage.getProperty "k" = none
    ∧ defaultMessage.getData = none
    ∧ defaultMessage.getLength = none
    ∧ defaultMessage.getDataAsString = none := by
  exact ⟨rfl, rfl, rfl, rfl, rfl, rfl⟩

/-- C3 amended: on a Message with a null impl_, the accessors that guard on
impl_ do return defined empty values — getMessageId the invalid sentinel,
getPartitionKey, getOrderingKey, getTopicName and getSchemaVersion empty,
hasPartitionKey, hasOrderingKey and hasSchemaVersion false, timestamps,
redelivery count zero and getLongSchemaVersion -1 — while getProperties,
hasProperty, getProperty, getData, getLength and getDataAsString dereference
the null impl_ and have no defined result. -/
theorem null_impl_accessor_values (m : Message) (h : m.impl_ = none) :
    m.getMessageId = invalidMessageId
    ∧ m.hasPartitionKey = false
    ∧ m.getPartitionKey = ""
    ∧ m.hasOrderingKey = false
    ∧ m.getOrderingKey = ""
    ∧ m.getTopicName = ""
    ∧ m.getRedeliveryCount = 0
    ∧ m.hasSchemaVersion = false
    ∧ m.getSchemaVersion = []
    ∧ m.getLongSchemaVersion = -1
    ∧ m.getPublishTimestamp = 0
    ∧ m.getEventTimestamp = 0
    ∧ m.getProperties = none
    ∧ m.hasProperty "k" = none
    ∧ m.getProperty "k" = none
    ∧ m.getData = none
    ∧ m.getLength = none
    ∧ m.getDataAsString = none := by
  cases m with
  | mk impl =>
      cases h
      exact ⟨rfl, rfl, rfl, rfl, rfl, rfl, rfl, rfl, rfl, rfl, rfl, rfl, rfl, rfl,
             rfl, rfl, rfl, rfl⟩

/-- Witness for the C3 amended theorem at the default-constructed Message. -/
theorem null_impl_accessor_values_witness :
    defaultMessage.impl_ = none
    ∧ (defaultMessage.getMessageId = invalidMessageId
       ∧ defaultMessage.hasPartitionKey = false
       ∧ defaultMessage.getPartitionKey = ""
       ∧ defaultMessage.hasOrderingKey = false
       ∧ defaultMessage.getOrderingKey = ""
       ∧ defaultMessage.getTopicName = ""
       ∧ defaultMessage.getRedeliveryCount = 0
       ∧ defaultMessage.hasSchemaVersion = false
       ∧ defaultMessage.getSchemaVersion = []
       ∧ defaultMessage.getLongSchemaVersion = -1
       ∧ defaultMessage.getPublishTimestamp = 0
       ∧ defaultMessage.getEventTimestamp = 0
       ∧ defaultMessage.getProperties = none
       ∧ defaultMessage.hasProperty "k" = none
       ∧ defaultMessage.getProperty "k" = none
       ∧ defaultMessage.getData = none
       ∧ defaultMessage.getLength = none
       ∧ defaultMessage.getDataAsString = none) :=
  ⟨rfl, null_impl_accessor_values defaultMessage rfl⟩

/-- A concrete message whose MessageId is already bound (not the sentinel). -/
def boundMessage : Message :=
  ⟨some { messageId := { ledgerId := 1, entryId := 2, partition := 3, batchIndex := 4 } }⟩

/-- C4 counterexample: calling setMessageId on a message whose MessageId is
already bound does change it — the code overwrites the id unconditionally
whenever impl_ is non-null, so the claimed at-most-once transition is false. -/
theorem setMessageId_overwrites_bound_id :
    boundMessage.getMessageId
        = { ledgerId := 1, entryId := 2, partition := 3, batchIndex := 4 }
    ∧ boundMessage.getMessageId ≠ invalidMessageId
    ∧ (boundMessage.setMessageId
          { ledgerId := 5, entryId := 6, partition := 7, batchIndex := 8 }).getMessageId
        = { ledgerId := 5, entryId := 6, partition := 7, batchIndex := 8 }
    ∧ (boundMessage.setMessageId
          { ledgerId := 5, entryId := 6, partition := 7, batchIndex := 8 }).getMessageId
        ≠ boundMessage.getMessageId := by
  refine ⟨rfl, ?_, rfl, ?_⟩ <;> decide

/-- C4 amended: setMessageId assigns the given id whenever impl_ is non-null —
overwriting any previously bound id — and is a no-op on a null impl_; every
other component of the message (metadata, payload, topic name, redelivery
count) is left unchanged, so the MessageId is the only mutable part. -/
theorem setMessageId_behavior (m : Message) (messageID : MessageId) :
    (m.setMessageId messageID).getMessageId
        = (if m.impl_.isSome then messageID else invalidMessageId)
    ∧ ((m.setMessageId messageID).impl_.map fun i => i.metadata)
        = (m.impl_.map fun i => i.metadata)
    ∧ ((m.setMessageId messageID).impl_.map fun i => i.payload)
        = (m.impl_.map fun i => i.payload)
    ∧ ((m.setMessageId messageID).impl_.map fun i => i.topicName)
        = (m.impl_.map fun i => i.topicName)
    ∧ ((m.setMessageId messageID).impl_.map fun i => i.redeliveryCount)
        = (m.impl_.map fun i => i.redeliveryCount) := by
  cases m with
  | mk impl =>
      cases impl <;> simp [Message.setMessageId, Message.getMessageId]

/-- C5: two Message handles compare equal under operator== exactly when their
getMessageId results are equal; no other field enters the comparison (the
operator reads only getMessageId of each side). -/
theorem message_eq_iff_messageId_eq (m1 m2 : Message) :
    Message.msgEq m1 m2 = true ↔ m1.getMessageId = m2.getMessageId := by
  simp [Message.msgEq]

/-- C9: for a Message with a non-null implementation, getLongSchemaVersion
returns -1 when no schema version is set, and otherwise the schema version
bytes read as a big-endian 64-bit integer. -/
theorem getLongSchemaVersion_bigEndian (impl : MessageImpl) :
    (Message.mk (some impl)).getLongSchemaVersion
      = (impl.metadata.schema_version.map fromBigEndianBytes).getD (-1) := by
  cases h : impl.metadata.schema_version <;>
    simp [Message.getLongSchemaVersion, MessageImpl.hasSchemaVersion,
          MessageImpl.getSchemaVersion, h]

/-- The closed outcome enumeration surfaced at the client boundary (spec §6). -/
inductive SessionResult where
  | Ok
  | Timeout
  | ConnectError
  | Disconnected
  | ServiceUnitNotReady
  | ProducerNotInitialized
  | ConsumerNotInitialized
  deriving DecidableEq

/-- Whether the broker accepts a create-request or rejects it because the
target service unit is not ready for the configured listener name (spec §4.4). -/
inductive BrokerOutcome where
  | ready
  | serviceUnitNotReady
  deriving DecidableEq

/-- Modelled from the spec: the partitioned-topic fan-out of §4.3 — a
non-partitioned topic (partition count 0) gives one resource on the topic
itself, a partitioned topic one resource per partition-suffixed name. -/
def partitionTopicNames (topic : String) (partitions : Nat) : List String :=
  if partitions = 0 then [topic]
  else (List.range partitions).map fun i => topic ++ "-partition-" ++ toString i

/-- Modelled from the spec: the external producer handle — the registry keys it
registered and whether it finished initialization (§4.4: a failed create leaves
the handle uninitialized). -/
structure ProducerHandle where
  registeredTopics : List String := []
  initialized : Bool := false
  deriving DecidableEq

/-- Modelled from the spec: the client session's producer registry
(ClientImpl is not under src/, only its tests) — the list of registered
producer entries, one per partition. -/
structure ClientSession where
  producers : List String := []
  deriving DecidableEq

/-- The session's producer registry count (client.getNumberOfProducers). -/
def ClientSession.producerCount (s : ClientSession) : Nat :=
  s.producers.length

/-- Modelled from the spec (§4.3 and §4.4, ClientImpl not under src/): a
create-request that the broker accepts registers one entry per partition and
returns an initialized handle; a "service unit not ready" rejection leaves the
registry untouched and returns an uninitialized handle. -/
def ClientSession.createProducer (s : ClientSession) (topic : String)
    (partitions : Nat) (broker : BrokerOutcome) :
    SessionResult × ClientSession × ProducerHandle :=
  match broker with
  | BrokerOutcome.ready =>
      let keys := partitionTopicNames topic partitions
      (SessionResult.Ok, { s with producers := s.producers ++ keys },
       { registeredTopics := keys, initialized := true })
  | BrokerOutcome.serviceUnitNotReady =>
      (SessionResult.ServiceUnitNotReady, s, {})

/-- Modelled from the spec (§4.3 close protocol and §4.4, ClientImpl not under
src/): closing an initialized handle drops its registry entries and reports Ok;
closing an uninitialized handle reports ProducerNotInitialized and changes
nothing. -/
def ClientSession.closeProducer (s : ClientSession) (p : ProducerHandle) :
    SessionResult × ClientSession :=
  if p.initialized then
    (SessionResult.Ok,
     { s with producers := s.producers.filter fun t => !(p.registeredTopics.contains t) })
  else (SessionResult.ProducerNotInitialized, s)

/-- C7: creating a producer for a partitioned topic with partition count P on a
fresh session succeeds with a producer registry count of exactly P (never 1),
and closing that producer brings the count back to 0. -/
theorem partitioned_producer_registry_count (topic : String) (P : Nat) (hP : 0 < P) :
    (ClientSession.createProducer {} topic P BrokerOutcome.ready).1 = SessionResult.Ok
    ∧ (ClientSession.createProducer {} topic P BrokerOutcome.ready).2.1.producerCount = P
    ∧ (ClientSession.closeProducer
        (ClientSession.createProducer {} topic P BrokerOutcome.ready).2.1
        (ClientSession.createProducer {} topic P BrokerOutcome.ready).2.2).1
        = SessionResult.Ok
    ∧ (ClientSession.closeProducer
        (ClientSession.createProducer {} topic P BrokerOutcome.ready).2.1
        (ClientSession.createProducer {} topic P BrokerOutcome.ready).2.2).2.producerCount
        = 0 := by
  have hne : P ≠ 0 := Nat.pos_iff_ne_zero.mp hP
  refine ⟨rfl, ?_, ?_, ?_⟩
  · simp [ClientSession.createProducer, ClientSession.producerCount,
          partitionTopicNames, hne]
  · simp [ClientSession.createProducer, ClientSession.closeProducer]
  · simp [ClientSession.createProducer, ClientSession.closeProducer,
          ClientSession.producerCount, List.filter_eq_nil_iff]

/-- Witness for the C7 theorem at partition count 2. -/
theorem partitioned_producer_registry_count_witness :
    0 < 2
    ∧ ((ClientSession.createProducer {} "t" 2 BrokerOutcome.ready).1 = SessionResult.Ok
       ∧ (ClientSession.createProducer {} "t" 2 BrokerOutcome.ready).2.1.producerCount = 2
       ∧ (ClientSession.closeProducer
           (ClientSession.createProducer {} "t" 2 BrokerOutcome.ready).2.1
           (ClientSession.createProducer {} "t" 2 BrokerOutcome.ready).2.2).1
           = SessionResult.Ok
       ∧ (ClientSession.closeProducer
           (ClientSession.createProducer {} "t" 2 BrokerOutcome.ready).2.1
           (ClientSession.createProducer {} "t" 2 BrokerOutcome.ready).2.2).2.producerCount
           = 0) :=
  ⟨by decide, partitioned_producer_registry_count "t" 2 (by decide)⟩

/-- C8: a create-request rejected with "service unit not ready" reports that
distinct outcome, leaves the registry exactly as it was (zero entries for the
attempted resource), and returns an uninitialized handle whose close reports
ProducerNotInitialized rather than Ok. -/
theorem service_unit_not_ready_registry_untouched (s : ClientSession)
    (topic : String) (partitions : Nat) :
    (s.createProducer topic partitions BrokerOutcome.serviceUnitNotReady).1
        = SessionResult.ServiceUnitNotReady
    ∧ (s.createProducer topic partitions BrokerOutcome.serviceUnitNotReady).2.1 = s
    ∧ (s.createProducer topic partitions BrokerOutcome.serviceUnitNotReady).2.2.initialized
        = false
    ∧ (ClientSession.closeProducer
        (s.createProducer topic partitions BrokerOutcome.serviceUnitNotReady).2.1
        (s.createProducer topic partitions BrokerOutcome.serviceUnitNotReady).2.2).1
        = SessionResult.ProducerNotInitialized
    ∧ (ClientSession.closeProducer
        (s.createProducer topic partitions BrokerOutcome.serviceUnitNotReady).2.1
        (s.createProducer topic partitions BrokerOutcome.serviceUnitNotReady).2.2).2
        = s := by
  refine ⟨rfl, rfl, rfl, ?_, ?_⟩ <;>
    simp [ClientSession.createProducer, ClientSession.closeProducer]

/-- One printed entry of the StringMap stream output,
src/lib/Message.cc line 218: quote, key, quote, colon, quote, value, quote. -/
def formatEntry (kv : String × String) : String :=
  "\x27" ++ kv.1 ++ "\x27:\x27" ++ kv.2 ++ "\x27"

/-- The loop and the trailing check of operator<< for Message::StringMap,
src/lib/Message.cc lines 211-223: print entries while fewer than 10 were
printed, with ", " before every entry but the first, and print " ..." when
entries remain once the loop stops. -/
def printMapLoop : List (String × String) → Nat → String
  | [], _ => ""
  | kv :: rest, i =>
    if i < 10 then
      (if 0 < i then ", " else "") ++ formatEntry kv ++ printMapLoop rest (i + 1)
    else " ..."

/-- operator<<(std::ostream, const Message::StringMap) of
src/lib/Message.cc lines 207-227: the loop output wrapped in braces. -/
def printStringMap (m : List (String × String)) : String :=
  "\x7b" ++ printMapLoop m 0 ++ "\x7d"

/-- Comma-space separated concatenation, used to state what the printing loop
produces. -/
def joinSep : List String → String
  | [] => ""
  | [a] => a
  | a :: b :: rest => a ++ ", " ++ joinSep (b :: rest)

theorem joinSep_cons (a : String) (l : List String) :
    joinSep (a :: l) = a ++ (if l = [] then "" else ", " ++ joinSep l) := by
  cases l with
  | nil => simp [joinSep]
  | cons b bs => simp [joinSep, String.append_assoc]

theorem printMapLoop_spec (l : List (String × String)) :
    ∀ i, i ≤ 10 →
    printMapLoop l i
      = (if 0 < i ∧ i < 10 ∧ l ≠ [] then ", " else "")
        ++ joinSep ((l.take (10 - i)).map formatEntry)
        ++ (if 10 - i < l.length then " ..." else "") := by
  induction l with
  | nil =>
      intro i h
      simp [printMapLoop, joinSep]
  | cons kv rest ih =>
      intro i h
      by_cases hi : i < 10
      · have h10 : 10 - i = (9 - i) + 1 := by omega
        rw [show printMapLoop (kv :: rest) i
              = (if 0 < i then ", " else "") ++ formatEntry kv ++ printMapLoop rest (i + 1) by
            simp [printMapLoop, hi]]
        rw [ih (i + 1) (by omega)]
        rw [show 10 - (i + 1) = 9 - i by omega, h10]
        rw [List.take_succ_cons, List.map_cons, joinSep_cons]
        by_cases hrest : rest = []
        · subst hrest
          simp [hi, joinSep, String.append_assoc]
        · by_cases hi9 : i + 1 < 10
          · have h90 : 9 - i ≠ 0 := by omega
            simp [hi, hi9, hrest, h90, String.append_assoc]
          · have h9 : 9 - i = 0 := by omega
            simp [hi, hi9, hrest, h9, joinSep, String.append_assoc,
                  List.length_pos.mpr hrest]
      · have h10 : i = 10 := by omega
        subst h10
        simp [printMapLoop, joinSep]

/-- C10: the stream output for a Message::StringMap is the first (at most) 10
entries, each printed as a quoted key/value pair, comma-separated inside
braces, with " ..." appended exactly when the map holds more than 10 entries. -/
theorem printStringMap_output (m : List (String × String)) :
    printStringMap m
      = "\x7b" ++ joinSep ((m.take 10).map formatEntry)
        ++ (if 10 < m.length then " ..." else "") ++ "\x7d" := by
  have h := printMapLoop_spec m 0 (by omega)
  simp only [Nat.sub_zero] at h
  simp [printStringMap, h, String.append_assoc]

end Pulsar
